import Mathlib

/-!
Verification of the conversion-job orchestrator: the Deno edge-function
handler that stages a 2D image, invokes the external CAD conversion engine
under a 300000 ms budget, publishes artifacts, records metadata best-effort,
cleans up, and reports a JSON outcome.

The handler is embedded shallowly: every effectful step (request-body parse,
base64 decode, storage uploads, local file writes and reads, the python
process, the database insert, file removals) is represented by an oracle
field of a `World` record giving the outcome of that step, and the handler is a
pure function of the `World`. The model additionally tracks, in a
`JobState`, the ordered trace of pipeline stage events, the list of local
staged files currently existing, and the time spent waiting on the
engine race.
-/

/-- The parsed JSON request body, as in the `ProcessRequest` interface. -/
structure ProcessRequest where
  imageData : String
  fileName : String
  prompt : String
deriving DecidableEq

/-- Outcome of `pythonProcess.output()`: exit code and captured streams. -/
structure ProcOutput where
  code : Int
  stdout : String
  stderr : String
deriving DecidableEq

/-- A row returned by the `models` insert. -/
structure DbRecord where
  id : String
deriving DecidableEq

/-- Oracle of effect outcomes for one request. An `Except.error m` or
`some m` value means the corresponding runtime step throws or reports an
error whose message is `m` (possibly empty). `now1 .. now4` are the four
successive `Date.now()` readings; `procTime` is the wall-clock duration of
the python process; `procWritesOutput` says whether the engine process
actually writes the reserved output file. -/
structure World where
  reqJson : Except String ProcessRequest
  atobResult : Except String (List Nat)
  now1 : Nat
  now2 : Nat
  now3 : Nat
  now4 : Nat
  imageError : Option String
  imageUrlPublic : String
  writeFileErr : Option String
  pythonCheck : Except String Int
  procTime : Nat
  procOutput : Except String ProcOutput
  procWritesOutput : Bool
  stepBytes : List Nat
  readErrMsg : String
  stepError : Option String
  stepUrlPublic : String
  dbResult : Except String DbRecord
  removeImageErr : Option String
  removeStepErr : Option String

/-- The pipeline stage events, in the order the handler performs them. -/
inductive StageEvent where
  | publishInput
  | staged
  | invoked
  | publishOutput
  | recorded
  | cleanedUp
  | reported
deriving DecidableEq

/-- Observable job state: trace of stage events, local staged files
existing, and time spent waiting on the engine race. -/
structure JobState where
  trace : List StageEvent
  fs : List String
  elapsed : Nat
deriving DecidableEq

/-- Payload of the success response body. -/
structure SuccessPayload where
  modelId : Option String
  imageUrl : String
  stepUrl : String
  message : String
deriving DecidableEq

/-- The three response shapes the handler can return. -/
inductive HandlerResponse where
  | preflight
  | success (p : SuccessPayload)
  | failure (error : String)
deriving DecidableEq

/-- The timeout budget: 300000 ms (5 minutes). -/
def timeoutBudget : Nat := 300000

/-- Message of the rejection installed by the timeout timer. -/
def timeoutMessage : String := "Processing timeout - operation took too long"

/-- Fallback used by the catch block when the caught message is empty. -/
def fallbackMessage : String := "An unexpected error occurred"

/-- Local staged input path, from the second `Date.now()` reading. -/
def tempImagePath (w : World) : String :=
  "/tmp/input_" ++ toString w.now2 ++ ".jpg"

/-- Reserved local output path, from the third `Date.now()` reading. -/
def tempStepPath (w : World) : String :=
  "/tmp/output_" ++ toString w.now3 ++ ".step"

/-- Storage key of the published input image. -/
def imageFileName (w : World) (fileName : String) : String :=
  "input_" ++ toString w.now1 ++ "_" ++ fileName

/-- Storage key of the published output model. -/
def stepFileName (w : World) : String :=
  "output_" ++ toString w.now4 ++ ".step"

/-- Content type selected from the file-name extension. -/
def contentTypeFor (fileName : String) : String :=
  if fileName.toLower.endsWith ".png" then "image/png" else "image/jpeg"

/-- Error text thrown on a non-zero engine exit code. -/
def engineFailureText (code : Int) (stderrTxt : String) : String :=
  "Python script failed (exit code " ++ toString code ++ "): " ++
    (if stderrTxt = "" then "Unknown error" else stderrTxt)

/-- Error text thrown when the reserved output path cannot be read. -/
def artifactMissingText (m : String) : String :=
  "STEP file not generated: " ++ m

/-- The `Promise.race` of the process against the 300000 ms timer: the
process result is used when the process finishes strictly inside the
budget, otherwise the timer rejection wins. -/
def raceResult (w : World) : Except String ProcOutput :=
  if w.procTime < timeoutBudget then w.procOutput
  else Except.error timeoutMessage

/-- Reading the reserved output path succeeds exactly when that file
exists among the local staged files. -/
def readStepFile (w : World) (fs : List String) : Except String (List Nat) :=
  if tempStepPath w ∈ fs then Except.ok w.stepBytes
  else Except.error w.readErrMsg

/-- The body of the try block: each step in source order, short-circuiting
to the catch block with the thrown message and the job state at the throw
point. The success value is the payload of the success response together
with the final job state. -/
def runPipeline (w : World) : Except (String × JobState) (SuccessPayload × JobState) :=
  let s0 : JobState := { trace := [], fs := [], elapsed := 0 }
  match w.reqJson with
  | Except.error m => Except.error (m, s0)
  | Except.ok req =>
    match w.atobResult with
    | Except.error m => Except.error (m, s0)
    | Except.ok _imageBytes =>
      let _key := imageFileName w req.fileName
      let _ct := contentTypeFor req.fileName
      match w.imageError with
      | some m => Except.error ("Image upload failed: " ++ m, s0)
      | none =>
        let s1 : JobState := { s0 with trace := [StageEvent.publishInput] }
        match w.writeFileErr with
        | some m => Except.error (m, s1)
        | none =>
          let s2 : JobState :=
            { trace := s1.trace ++ [StageEvent.staged],
              fs := [tempImagePath w], elapsed := s1.elapsed }
          match w.pythonCheck with
          | Except.error _ =>
              Except.error ("Python environment not properly configured", s2)
          | Except.ok checkCode =>
            if checkCode ≠ 0 then
              Except.error ("Python environment not properly configured", s2)
            else
              let fsAfter :=
                if w.procTime < timeoutBudget ∧ w.procWritesOutput then
                  s2.fs ++ [tempStepPath w]
                else s2.fs
              let s3 : JobState :=
                { trace := s2.trace ++ [StageEvent.invoked],
                  fs := fsAfter,
                  elapsed := s2.elapsed + min w.procTime timeoutBudget }
              match raceResult w with
              | Except.error m => Except.error (m, s3)
              | Except.ok out =>
                if out.code ≠ 0 then
                  Except.error (engineFailureText out.code out.stderr, s3)
                else
                  match readStepFile w s3.fs with
                  | Except.error m =>
                      Except.error (artifactMissingText m, s3)
                  | Except.ok _stepFileData =>
                    match w.stepError with
                    | some m =>
                        Except.error ("STEP file upload failed: " ++ m, s3)
                    | none =>
                      let s4 : JobState :=
                        { s3 with trace := s3.trace ++ [StageEvent.publishOutput] }
                      let modelId : Option String :=
                        match w.dbResult with
                        | Except.error _ => none
                        | Except.ok r => if r.id = "" then none else some r.id
                      let s5 : JobState :=
                        { s4 with trace := s4.trace ++ [StageEvent.recorded] }
                      let fsClean :=
                        match w.removeImageErr with
                        | some _ => s5.fs
                        | none =>
                          match w.removeStepErr with
                          | some _ => s5.fs.erase (tempImagePath w)
                          | none =>
                              (s5.fs.erase (tempImagePath w)).erase (tempStepPath w)
                      let s6 : JobState :=
                        { s5 with trace := s5.trace ++ [StageEvent.cleanedUp],
                                  fs := fsClean }
                      Except.ok
                        ({ modelId := modelId,
                           imageUrl := w.imageUrlPublic,
                           stepUrl := w.stepUrlPublic,
                           message := "CAD model generated successfully" }, s6)

/-- The full handler: the OPTIONS preflight branch, else the try block with
the catch block applying the message-or-fallback rule; every non-preflight
branch ends by appending the `reported` event. -/
def serveHandler (method : String) (w : World) : HandlerResponse × JobState :=
  if method = "OPTIONS" then
    (HandlerResponse.preflight, { trace := [], fs := [], elapsed := 0 })
  else
    match runPipeline w with
    | Except.ok (p, s) =>
        (HandlerResponse.success p,
         { s with trace := s.trace ++ [StageEvent.reported] })
    | Except.error (m, s) =>
        (HandlerResponse.failure (if m = "" then fallbackMessage else m),
         { s with trace := s.trace ++ [StageEvent.reported] })

/-- The JSON body and status of a response; `none` for the preflight
response, whose body is not a JSON outcome. -/
structure JsonResponse where
  success : Bool
  modelId : Option (Option String)
  imageUrl : Option String
  stepUrl : Option String
  error : Option String
  message : Option String
  status : Nat
deriving DecidableEq

/-- JSON shape of each handler response. -/
def toJsonResponse : HandlerResponse → Option JsonResponse
  | HandlerResponse.preflight => none
  | HandlerResponse.success p =>
      some { success := true, modelId := some p.modelId,
             imageUrl := some p.imageUrl, stepUrl := some p.stepUrl,
             error := none, message := some p.message, status := 200 }
  | HandlerResponse.failure e =>
      some { success := false, modelId := none, imageUrl := none,
             stepUrl := none, error := some e, message := none, status := 500 }

/-- Whether a response is the success outcome. -/
def isSuccess : HandlerResponse → Bool
  | HandlerResponse.success _ => true
  | _ => false

/-- The order in which the handler performs the pipeline stages. -/
def pipelineOrder : List StageEvent :=
  [StageEvent.publishInput, StageEvent.staged, StageEvent.invoked,
   StageEvent.publishOutput, StageEvent.recorded, StageEvent.cleanedUp]

/-- Decimal digits of a natural number, most significant first; reference
function used to reason about the renderings inside staged path names. -/
def decDigits (n : Nat) : List Char :=
  if h : n / 10 = 0 then [Nat.digitChar (n % 10)]
  else decDigits (n / 10) ++ [Nat.digitChar (n % 10)]
decreasing_by
  exact Nat.div_lt_self (Nat.pos_of_ne_zero (fun h0 => h (by simp [h0]))) (by decide)

/-- A request used to instantiate universally quantified theorems. -/
def okReq : ProcessRequest :=
  { imageData := "QUJD", fileName := "drawing.png", prompt := "a bracket" }

/-- A second, different request, for the path-collision counterexample. -/
def otherReq : ProcessRequest :=
  { imageData := "UVJT", fileName := "sketch.jpg", prompt := "a flange" }

/-- A world in which every effectful step succeeds. -/
def okWorld : World :=
  { reqJson := Except.ok okReq
    atobResult := Except.ok [65, 66, 67]
    now1 := 1, now2 := 2, now3 := 3, now4 := 4
    imageError := none
    imageUrlPublic := "https://store/cad-images/input_1_drawing.png"
    writeFileErr := none
    pythonCheck := Except.ok 0
    procTime := 1000
    procOutput := Except.ok { code := 0, stdout := "done", stderr := "" }
    procWritesOutput := true
    stepBytes := [1, 2, 3]
    readErrMsg := "No such file or directory"
    stepError := none
    stepUrlPublic := "https://store/cad-models/output_4.step"
    dbResult := Except.ok { id := "model-1" }
    removeImageErr := none
    removeStepErr := none }

/-- A world in which the engine exits with code 1 and stderr text. -/
def engineFailWorld : World :=
  { okWorld with
      procOutput := Except.ok { code := 1, stdout := "", stderr := "boom" }
      procWritesOutput := false }

/-- A world in which the engine runs past the 300000 ms budget. -/
def timeoutWorld : World :=
  { okWorld with procTime := 300001 }

/-- A world in which only the metadata insert fails. -/
def dbFailWorld : World :=
  { okWorld with dbResult := Except.error "duplicate key value" }

/-- A world in which the engine exits 0 without writing the output file. -/
def noOutputWorld : World :=
  { okWorld with procWritesOutput := false }

/-- A world in which base64 decoding throws. -/
def decodeFailWorld : World :=
  { okWorld with atobResult := Except.error "InvalidCharacterError" }

/-- A world in which the input-image upload is rejected. -/
def uploadFailWorld : World :=
  { okWorld with imageError := some "quota exceeded" }

/-- First of two concurrent jobs staged in the same millisecond. -/
def collideWorldA : World :=
  { okWorld with reqJson := Except.ok okReq, now2 := 7, now3 := 7 }

/-- Second job, distinct request, staged in the same millisecond. -/
def collideWorldB : World :=
  { okWorld with reqJson := Except.ok otherReq, now2 := 7, now3 := 7 }

/-- The job state carried by either outcome of the try block. -/
def stateOf : Except (String × JobState) (SuccessPayload × JobState) → JobState
  | Except.ok (_, s) => s
  | Except.error (_, s) => s

/-! ## Helper lemmas -/

theorem engineFailureText_ne_empty (c : Int) (st : String) :
    engineFailureText c st ≠ "" := by
  intro h
  have h0 : (some 'P' : Option Char) = none :=
    congrArg (fun s => s.data.get? 0) h
  simp at h0

theorem artifactMissingText_ne_empty (m : String) :
    artifactMissingText m ≠ "" := by
  intro h
  have h0 : (some 'S' : Option Char) = none :=
    congrArg (fun s => s.data.get? 0) h
  simp at h0

theorem artifactText_ne_engineText (m : String) (c : Int) (st : String) :
    artifactMissingText m ≠ engineFailureText c st := by
  intro h
  have h0 : (some 'S' : Option Char) = some 'P' :=
    congrArg (fun s => s.data.get? 0) h
  simp at h0

theorem tempStepPath_ne_tempImagePath (w v : World) :
    tempStepPath w ≠ tempImagePath v := by
  intro h
  have h5 : (some 'o' : Option Char) = some 'i' :=
    congrArg (fun s => s.data.get? 5) h
  simp at h5

theorem digitChar_val (d : Nat) (h : d < 10) : (Nat.digitChar d).toNat - 48 = d := by
  interval_cases d <;> decide

theorem toDigitsCore_eq (fuel n : Nat) (ds : List Char) (hf : n < fuel) :
    Nat.toDigitsCore 10 fuel n ds = decDigits n ++ ds := by
  induction fuel generalizing n ds with
  | zero => omega
  | succ f ih =>
    rw [Nat.toDigitsCore]
    by_cases h : n / 10 = 0
    · simp [h, decDigits]
    · rw [if_neg h, ih (n / 10) _ (by omega)]
      conv_rhs => rw [decDigits]
      simp [h]

theorem decDigits_val (n : Nat) :
    (decDigits n).foldl (fun a c => 10 * a + (c.toNat - 48)) 0 = n := by
  induction n using Nat.strong_induction_on with
  | _ n ih =>
    rw [decDigits]
    by_cases h : n / 10 = 0
    · rw [dif_pos h]
      simp [digitChar_val (n % 10) (Nat.mod_lt _ (by decide))]
      omega
    · rw [dif_neg h, List.foldl_append,
        ih (n / 10) (Nat.div_lt_self (Nat.pos_of_ne_zero fun h0 => h (by simp [h0])) (by decide))]
      simp [digitChar_val (n % 10) (Nat.mod_lt _ (by decide))]
      omega

theorem nat_repr_injective : Function.Injective Nat.repr := by
  intro a b h
  have hd : Nat.toDigits 10 a = Nat.toDigits 10 b := by
    have := congrArg String.data h
    simpa [Nat.repr, List.asString] using this
  have ha : decDigits a = decDigits b := by
    have h1 := toDigitsCore_eq (a + 1) a [] (Nat.lt_succ_self a)
    have h2 := toDigitsCore_eq (b + 1) b [] (Nat.lt_succ_self b)
    simp only [Nat.toDigits] at hd
    rw [h1, h2] at hd
    simpa using hd
  have := congrArg (fun l => l.foldl (fun a c => 10 * a + (c.toNat - 48)) 0) ha
  simpa [decDigits_val] using this

/-! ## Claim theorems -/

/-- C2: for every request, the JSON response satisfies exactly one of:
success true with both imageUrl and stepUrl set at HTTP 200, or success
false with error set at HTTP 500; never both and never neither. -/
theorem response_shape_exclusive (method : String) (w : World) (j : JsonResponse)
    (h : toJsonResponse (serveHandler method w).1 = some j) :
    (j.success = true ∧ j.imageUrl.isSome ∧ j.stepUrl.isSome ∧ j.status = 200
       ∧ ¬(j.success = false ∧ j.error.isSome ∧ j.status = 500))
    ∨ (j.success = false ∧ j.error.isSome ∧ j.status = 500
       ∧ ¬(j.success = true ∧ j.imageUrl.isSome ∧ j.stepUrl.isSome ∧ j.status = 200)) := by
  unfold serveHandler at h
  by_cases hm : method = "OPTIONS"
  · rw [if_pos hm] at h
    simp [toJsonResponse] at h
  · rw [if_neg hm] at h
    cases hp : runPipeline w with
    | ok v =>
      obtain ⟨p, s⟩ := v
      rw [hp] at h
      simp only [toJsonResponse, Option.some.injEq] at h
      subst h
      left
      simp
    | error v =>
      obtain ⟨m, s⟩ := v
      rw [hp] at h
      simp only [toJsonResponse, Option.some.injEq] at h
      subst h
      right
      simp

/-- C2 witness: the shape property at a concrete successful request. -/
theorem response_shape_exclusive_witness :
    ∃ j, toJsonResponse (serveHandler "POST" okWorld).1 = some j ∧
      ((j.success = true ∧ j.imageUrl.isSome ∧ j.stepUrl.isSome ∧ j.status = 200
         ∧ ¬(j.success = false ∧ j.error.isSome ∧ j.status = 500))
       ∨ (j.success = false ∧ j.error.isSome ∧ j.status = 500
         ∧ ¬(j.success = true ∧ j.imageUrl.isSome ∧ j.stepUrl.isSome ∧ j.status = 200))) :=
  ⟨{ success := true, modelId := some (some "model-1"),
     imageUrl := some okWorld.imageUrlPublic, stepUrl := some okWorld.stepUrlPublic,
     error := none, message := some "CAD model generated successfully", status := 200 },
   rfl, response_shape_exclusive "POST" okWorld _ rfl⟩

/-- C9: for every failure response, the error field is a non-empty string:
every throw site supplies a non-empty message and the catch block
substitutes the fixed fallback text when the caught message is empty. -/
theorem failure_error_nonempty (method : String) (w : World) (e : String)
    (h : (serveHandler method w).1 = HandlerResponse.failure e) : e ≠ "" := by
  unfold serveHandler at h
  by_cases hm : method = "OPTIONS"
  · rw [if_pos hm] at h
    simp at h
  · rw [if_neg hm] at h
    cases hp : runPipeline w with
    | ok v =>
      obtain ⟨p, s⟩ := v
      rw [hp] at h
      simp at h
    | error v =>
      obtain ⟨m, s⟩ := v
      rw [hp] at h
      simp only [HandlerResponse.failure.injEq] at h
      subst h
      by_cases hm0 : m = ""
      · rw [if_pos hm0]
        decide
      · rw [if_neg hm0]
        exact hm0

/-- C9 witness: a concrete failing request with non-empty error text. -/
theorem failure_error_nonempty_witness :
    (serveHandler "POST" uploadFailWorld).1
      = HandlerResponse.failure "Image upload failed: quota exceeded"
    ∧ "Image upload failed: quota exceeded" ≠ "" :=
  ⟨rfl, failure_error_nonempty "POST" uploadFailWorld _ rfl⟩

/-- C10: a job that fails during base64 decoding or during the input-image
upload has created no local staged file: the temp input file is written
only after the input upload succeeds, so these failure paths leave the
local filesystem unchanged. -/
theorem early_failure_leaves_fs_empty (method : String) (w : World)
    (h : (∃ m, w.atobResult = Except.error m) ∨ (∃ m, w.imageError = some m)) :
    (serveHandler method w).2.fs = [] := by
  unfold serveHandler
  by_cases hm : method = "OPTIONS"
  · rw [if_pos hm]
  · rw [if_neg hm]
    rcases hr : w.reqJson with m | req
    · simp [runPipeline, hr]
    · rcases ha : w.atobResult with m | bs
      · simp [runPipeline, hr, ha]
      · rcases hi : w.imageError with _ | m
        · rcases h with ⟨m, hm1⟩ | ⟨m, hm1⟩
          · rw [ha] at hm1
            exact absurd hm1 (by simp)
          · rw [hi] at hm1
            exact absurd hm1 (by simp)
        · simp [runPipeline, hr, ha, hi]

/-- C10 witness: a concrete upload-rejected request leaves no staged file. -/
theorem early_failure_leaves_fs_empty_witness :
    (serveHandler "POST" uploadFailWorld).2.fs = [] :=
  early_failure_leaves_fs_empty "POST" uploadFailWorld (Or.inr ⟨"quota exceeded", rfl⟩)

theorem runPipeline_trace (w : World) :
    ∃ n, (stateOf (runPipeline w)).trace = pipelineOrder.take n := by
  cases hr : w.reqJson with
  | error m => exact ⟨0, by simp [runPipeline, hr, stateOf]⟩
  | ok req =>
  cases ha : w.atobResult with
  | error m => exact ⟨0, by simp [runPipeline, hr, ha, stateOf]⟩
  | ok bs =>
  cases hi : w.imageError with
  | some m => exact ⟨0, by simp [runPipeline, hr, ha, hi, stateOf]⟩
  | none =>
  cases hw : w.writeFileErr with
  | some m =>
      exact ⟨1, by simp [runPipeline, hr, ha, hi, hw, stateOf, pipelineOrder]⟩
  | none =>
  cases hp : w.pythonCheck with
  | error m =>
      exact ⟨2, by simp [runPipeline, hr, ha, hi, hw, hp, stateOf, pipelineOrder]⟩
  | ok checkCode =>
  by_cases hc : checkCode = 0
  case neg =>
      exact ⟨2, by simp [runPipeline, hr, ha, hi, hw, hp, hc, stateOf, pipelineOrder]⟩
  case pos =>
  by_cases hpt : w.procTime < timeoutBudget
  case neg =>
      exact ⟨3, by simp [runPipeline, raceResult, hr, ha, hi, hw, hp, hc, hpt, stateOf,
        pipelineOrder]⟩
  case pos =>
  cases hpo : w.procOutput with
  | error m =>
      exact ⟨3, by simp [runPipeline, raceResult, hr, ha, hi, hw, hp, hc, hpt, hpo, stateOf,
        pipelineOrder]⟩
  | ok out =>
  by_cases hoc : out.code = 0
  case neg =>
      exact ⟨3, by simp [runPipeline, raceResult, hr, ha, hi, hw, hp, hc, hpt, hpo, hoc,
        stateOf, pipelineOrder]⟩
  case pos =>
  cases hpw : w.procWritesOutput with
  | false =>
      exact ⟨3, by simp [runPipeline, raceResult, readStepFile, hr, ha, hi, hw, hp, hc, hpt,
        hpo, hoc, hpw, tempStepPath_ne_tempImagePath w w, stateOf, pipelineOrder]⟩
  | true =>
  cases hse : w.stepError with
  | some m =>
      exact ⟨3, by simp [runPipeline, raceResult, readStepFile, hr, ha, hi, hw, hp, hc, hpt,
        hpo, hoc, hpw, hse, stateOf, pipelineOrder]⟩
  | none =>
      exact ⟨6, by simp [runPipeline, raceResult, readStepFile, hr, ha, hi, hw, hp, hc, hpt,
        hpo, hoc, hpw, hse, stateOf, pipelineOrder]⟩

/-- C3 counterexample: on a fully successful job the handler publishes the
input artifact before staging the local input file, so the claimed order,
which places staging and engine invocation before the input publish, does
not hold on the code. -/
theorem publish_input_precedes_staging :
    (serveHandler "POST" okWorld).2.trace
      = [StageEvent.publishInput, StageEvent.staged, StageEvent.invoked,
         StageEvent.publishOutput, StageEvent.recorded, StageEvent.cleanedUp,
         StageEvent.reported]
    ∧ List.indexOf StageEvent.publishInput (serveHandler "POST" okWorld).2.trace
        < List.indexOf StageEvent.staged (serveHandler "POST" okWorld).2.trace := by
  constructor
  · rfl
  · decide

/-- C3 amended: the pipeline stages execute in the fixed order: publish
the input artifact, then stage the local input, then invoke the engine
raced against the timeout, then publish the output artifact, then record
metadata, then clean up, then report; the trace of every non-preflight run is
a prefix of this order followed by the report event. -/
theorem pipeline_stage_order (method : String) (w : World) (h : method ≠ "OPTIONS") :
    ∃ n, (serveHandler method w).2.trace = pipelineOrder.take n ++ [StageEvent.reported] := by
  obtain ⟨n, hn⟩ := runPipeline_trace w
  refine ⟨n, ?_⟩
  unfold serveHandler
  rw [if_neg h]
  cases hp : runPipeline w with
  | ok v =>
    obtain ⟨p, s⟩ := v
    rw [hp] at hn
    simp only [stateOf] at hn
    simp [hn]
  | error v =>
    obtain ⟨m, s⟩ := v
    rw [hp] at hn
    simp only [stateOf] at hn
    simp [hn]

/-- C3 amended witness: the stage order at a concrete successful request. -/
theorem pipeline_stage_order_witness :
    ∃ n, (serveHandler "POST" okWorld).2.trace
      = pipelineOrder.take n ++ [StageEvent.reported] :=
  pipeline_stage_order "POST" okWorld (by decide)

/-- C1 counterexample: a job whose engine exits non-zero reports its
failure while the staged temp input file still exists: the cleanup block
runs only on the success path and the catch block removes nothing. -/
theorem staged_file_survives_failure :
    (serveHandler "POST" engineFailWorld).1
      = HandlerResponse.failure (engineFailureText 1 "boom")
    ∧ (serveHandler "POST" engineFailWorld).2.fs = [tempImagePath engineFailWorld]
    ∧ (serveHandler "POST" engineFailWorld).2.fs ≠ [] := by
  refine ⟨rfl, rfl, by decide⟩

/-- C1 amended: staged local artifacts are removed before the outcome is
reported only on the success path: when every stage and both removals
succeed, the job reports success and no staged local file of the job
remains; on fatal-error exits after staging, the staged input persists. -/
theorem success_path_cleanup (w : World) (req : ProcessRequest) (bs : List Nat)
    (out : ProcOutput)
    (h1 : w.reqJson = Except.ok req) (h2 : w.atobResult = Except.ok bs)
    (h3 : w.imageError = none) (h4 : w.writeFileErr = none)
    (h5 : w.pythonCheck = Except.ok 0) (h6 : w.procTime < timeoutBudget)
    (h7 : w.procOutput = Except.ok out) (h8 : out.code = 0)
    (h9 : w.procWritesOutput = true) (h10 : w.stepError = none)
    (h11 : w.removeImageErr = none) (h12 : w.removeStepErr = none) :
    isSuccess (serveHandler "POST" w).1 = true
    ∧ (serveHandler "POST" w).2.fs = [] := by
  constructor
  · simp [serveHandler, runPipeline, raceResult, readStepFile, isSuccess,
      h1, h2, h3, h4, h5, h6, h7, h8, h9, h10, h11, h12]
  · simp [serveHandler, runPipeline, raceResult, readStepFile,
      h1, h2, h3, h4, h5, h6, h7, h8, h9, h10, h11, h12]

/-- C1 amended witness: the success path at a concrete request ends with
no staged file. -/
theorem success_path_cleanup_witness :
    isSuccess (serveHandler "POST" okWorld).1 = true
    ∧ (serveHandler "POST" okWorld).2.fs = [] :=
  success_path_cleanup okWorld okReq [65, 66, 67] { code := 0, stdout := "done", stderr := "" }
    rfl rfl rfl rfl rfl (by decide) rfl rfl rfl rfl rfl rfl

/-- The race with the timer: with the budget exceeded, the handler reports
the fixed timeout failure and waits only the budget. -/
theorem timeout_failure_aux (w : World) (req : ProcessRequest) (bs : List Nat)
    (h1 : w.reqJson = Except.ok req) (h2 : w.atobResult = Except.ok bs)
    (h3 : w.imageError = none) (h4 : w.writeFileErr = none)
    (h5 : w.pythonCheck = Except.ok 0) (h6 : timeoutBudget < w.procTime) :
    (serveHandler "POST" w).1 = HandlerResponse.failure timeoutMessage
    ∧ (serveHandler "POST" w).2.elapsed = timeoutBudget := by
  have hnl : ¬ (w.procTime < timeoutBudget) := by omega
  have hmin : min w.procTime timeoutBudget = timeoutBudget := by omega
  have htm : ¬ (timeoutMessage = "") := by decide
  constructor
  · simp [serveHandler, runPipeline, raceResult, h1, h2, h3, h4, h5, hnl, htm]
  · simp [serveHandler, runPipeline, raceResult, h1, h2, h3, h4, h5, hnl, hmin]

/-- C4: a job whose engine invocation runs longer than the 300000 ms
budget resolves the race to the timeout: it reports failure, waiting only
the budget rather than the full process duration, the error text is the
fixed processing-timeout message, and the eventual engine-process
result is not used to decide the outcome: the reported failure is the
same whatever the process result is. -/
theorem timeout_reports_fixed_failure (w : World) (req : ProcessRequest) (bs : List Nat)
    (h1 : w.reqJson = Except.ok req) (h2 : w.atobResult = Except.ok bs)
    (h3 : w.imageError = none) (h4 : w.writeFileErr = none)
    (h5 : w.pythonCheck = Except.ok 0) (h6 : timeoutBudget < w.procTime) :
    (serveHandler "POST" w).1 = HandlerResponse.failure timeoutMessage
    ∧ (serveHandler "POST" w).2.elapsed = timeoutBudget
    ∧ ∀ po : Except String ProcOutput,
        (serveHandler "POST" { w with procOutput := po }).1
          = HandlerResponse.failure timeoutMessage :=
  ⟨(timeout_failure_aux w req bs h1 h2 h3 h4 h5 h6).1,
   (timeout_failure_aux w req bs h1 h2 h3 h4 h5 h6).2,
   fun po =>
     (timeout_failure_aux { w with procOutput := po } req bs h1 h2 h3 h4 h5 h6).1⟩

/-- C4 witness: a concrete over-budget job reports the fixed timeout
failure after waiting the budget. -/
theorem timeout_reports_fixed_failure_witness :
    (serveHandler "POST" timeoutWorld).1 = HandlerResponse.failure timeoutMessage
    ∧ (serveHandler "POST" timeoutWorld).2.elapsed = timeoutBudget :=
  ⟨(timeout_reports_fixed_failure timeoutWorld okReq [65, 66, 67]
      rfl rfl rfl rfl rfl (by decide)).1,
   (timeout_reports_fixed_failure timeoutWorld okReq [65, 66, 67]
      rfl rfl rfl rfl rfl (by decide)).2.1⟩

/-- C5: when staging, the engine, and both publishes succeed, a failure of
the metadata insert does not change the outcome: the response is still
the success response with both URLs set and modelId null. -/
theorem metadata_failure_nonfatal (w : World) (req : ProcessRequest) (bs : List Nat)
    (out : ProcOutput) (m : String)
    (h1 : w.reqJson = Except.ok req) (h2 : w.atobResult = Except.ok bs)
    (h3 : w.imageError = none) (h4 : w.writeFileErr = none)
    (h5 : w.pythonCheck = Except.ok 0) (h6 : w.procTime < timeoutBudget)
    (h7 : w.procOutput = Except.ok out) (h8 : out.code = 0)
    (h9 : w.procWritesOutput = true) (h10 : w.stepError = none)
    (hdb : w.dbResult = Except.error m) :
    (serveHandler "POST" w).1
      = HandlerResponse.success
          { modelId := none, imageUrl := w.imageUrlPublic,
            stepUrl := w.stepUrlPublic,
            message := "CAD model generated successfully" } := by
  simp [serveHandler, runPipeline, raceResult, readStepFile,
    h1, h2, h3, h4, h5, h6, h7, h8, h9, h10, hdb]

/-- C5 witness: a concrete job with a failing metadata insert still
reports success with modelId null. -/
theorem metadata_failure_nonfatal_witness :
    (serveHandler "POST" dbFailWorld).1
      = HandlerResponse.success
          { modelId := none, imageUrl := dbFailWorld.imageUrlPublic,
            stepUrl := dbFailWorld.stepUrlPublic,
            message := "CAD model generated successfully" } :=
  metadata_failure_nonfatal dbFailWorld okReq [65, 66, 67]
    { code := 0, stdout := "done", stderr := "" } "duplicate key value"
    rfl rfl rfl rfl rfl (by decide) rfl rfl rfl rfl rfl

/-- C6: when the engine exits with status zero but the reserved output
path cannot be read, the job fails with the artifact-missing error, whose
text is distinct from every engine-failure error text; the zero exit
alone never yields success. -/
theorem artifact_missing_distinct_failure (w : World) (req : ProcessRequest)
    (bs : List Nat) (out : ProcOutput)
    (h1 : w.reqJson = Except.ok req) (h2 : w.atobResult = Except.ok bs)
    (h3 : w.imageError = none) (h4 : w.writeFileErr = none)
    (h5 : w.pythonCheck = Except.ok 0) (h6 : w.procTime < timeoutBudget)
    (h7 : w.procOutput = Except.ok out) (h8 : out.code = 0)
    (h9 : w.procWritesOutput = false) :
    (serveHandler "POST" w).1
      = HandlerResponse.failure (artifactMissingText w.readErrMsg)
    ∧ ∀ (c : Int) (st : String),
        artifactMissingText w.readErrMsg ≠ engineFailureText c st := by
  refine ⟨?_, fun c st => artifactText_ne_engineText _ c st⟩
  have hne := artifactMissingText_ne_empty w.readErrMsg
  simp [serveHandler, runPipeline, raceResult, readStepFile,
    h1, h2, h3, h4, h5, h6, h7, h8, h9, hne, tempStepPath_ne_tempImagePath w w]

/-- C6 witness: a concrete zero-exit job with no output file fails with
the artifact-missing error, distinct from an engine-failure error. -/
theorem artifact_missing_distinct_failure_witness :
    (serveHandler "POST" noOutputWorld).1
      = HandlerResponse.failure (artifactMissingText "No such file or directory")
    ∧ artifactMissingText "No such file or directory" ≠ engineFailureText 1 "boom" :=
  ⟨(artifact_missing_distinct_failure noOutputWorld okReq [65, 66, 67]
      { code := 0, stdout := "done", stderr := "" }
      rfl rfl rfl rfl rfl (by decide) rfl rfl rfl).1,
   (artifact_missing_distinct_failure noOutputWorld okReq [65, 66, 67]
      { code := 0, stdout := "done", stderr := "" }
      rfl rfl rfl rfl rfl (by decide) rfl rfl rfl).2 1 "boom"⟩

/-- C7: a job whose engine process exits non-zero fails, and the failure
text carries the captured standard-error text verbatim as a contiguous
final segment. -/
theorem engine_failure_carries_stderr (w : World) (req : ProcessRequest)
    (bs : List Nat) (out : ProcOutput)
    (h1 : w.reqJson = Except.ok req) (h2 : w.atobResult = Except.ok bs)
    (h3 : w.imageError = none) (h4 : w.writeFileErr = none)
    (h5 : w.pythonCheck = Except.ok 0) (h6 : w.procTime < timeoutBudget)
    (h7 : w.procOutput = Except.ok out) (h8 : out.code ≠ 0) :
    (serveHandler "POST" w).1
      = HandlerResponse.failure (engineFailureText out.code out.stderr)
    ∧ ∃ pre, engineFailureText out.code out.stderr = pre ++ out.stderr := by
  constructor
  · have hne := engineFailureText_ne_empty out.code out.stderr
    simp [serveHandler, runPipeline, raceResult,
      h1, h2, h3, h4, h5, h6, h7, h8, hne]
  · by_cases hst : out.stderr = ""
    · refine ⟨engineFailureText out.code out.stderr, ?_⟩
      rw [hst]
      exact (String.append_empty _).symm
    · exact ⟨"Python script failed (exit code " ++ toString out.code ++ "): ",
        by rw [engineFailureText, if_neg hst]⟩

/-- C7 witness: a concrete exit-code-1 job fails with the stderr text
carried verbatim. -/
theorem engine_failure_carries_stderr_witness :
    (serveHandler "POST" engineFailWorld).1
      = HandlerResponse.failure (engineFailureText 1 "boom") :=
  (engine_failure_carries_stderr engineFailWorld okReq [65, 66, 67]
    { code := 1, stdout := "", stderr := "boom" }
    rfl rfl rfl rfl rfl (by decide) rfl (by decide)).1

theorem wrap_inj (pre suf : String) (a b : Nat)
    (h : pre ++ toString a ++ suf = pre ++ toString b ++ suf) : a = b := by
  have hd : (pre.data ++ (Nat.repr a).data) ++ suf.data
      = (pre.data ++ (Nat.repr b).data) ++ suf.data := congrArg String.data h
  have h1 : pre.data ++ (Nat.repr a).data = pre.data ++ (Nat.repr b).data :=
    List.append_cancel_right hd
  have h2 : (Nat.repr a).data = (Nat.repr b).data := List.append_cancel_left h1
  exact nat_repr_injective (String.ext h2)

/-- C8 counterexample: two distinct jobs staged in the same millisecond
share both staged local paths, because the paths derive only from the
coarse timestamp; so staged paths are not unique per job. -/
theorem staged_path_collision :
    okReq ≠ otherReq
    ∧ collideWorldA.reqJson = Except.ok okReq
    ∧ collideWorldB.reqJson = Except.ok otherReq
    ∧ tempImagePath collideWorldA = tempImagePath collideWorldB
    ∧ tempStepPath collideWorldA = tempStepPath collideWorldB :=
  ⟨by decide, rfl, rfl, rfl, rfl⟩

/-- C8 amended: two jobs share a staged input or output path only when
the corresponding Date.now() readings coincide: jobs whose staging
timestamps differ use distinct staged input paths and distinct staged
output paths. -/
theorem staged_paths_distinct (w1 w2 : World)
    (h2 : w1.now2 ≠ w2.now2) (h3 : w1.now3 ≠ w2.now3) :
    tempImagePath w1 ≠ tempImagePath w2 ∧ tempStepPath w1 ≠ tempStepPath w2 := by
  constructor
  · intro h
    exact h2 (wrap_inj "/tmp/input_" ".jpg" w1.now2 w2.now2 h)
  · intro h
    exact h3 (wrap_inj "/tmp/output_" ".step" w1.now3 w2.now3 h)

/-- C8 amended witness: two concrete jobs with different timestamps use
distinct staged paths. -/
theorem staged_paths_distinct_witness :
    tempImagePath okWorld ≠ tempImagePath collideWorldA
    ∧ tempStepPath okWorld ≠ tempStepPath collideWorldA :=
  staged_paths_distinct okWorld collideWorldA (by decide) (by decide)
